import Mathlib

/-!
# Verification of `scripts/rubrik_backup.py`

A shallow embedding of the on-demand-backup GitHub action script.  The
script talks to a GraphQL backend; every network interaction is modelled
as a `TransportEvent` supplied by the environment (the response the
`requests` library would deliver), and JSON values are modelled by the
inductive type `Json`.  Python's `None` returns are `Option.none`,
uncaught Python exceptions are `Except.error ()`, and lines printed to
stderr are collected as `LogLine` values.
-/

/-- JSON values as decoded by `resp.json()`. -/
inductive Json where
  | null
  | bool (b : Bool)
  | num (n : Int)
  | str (s : String)
  | arr (elems : List Json)
  | obj (fields : List (String × Json))

/-- Python truthiness of a JSON value (`if x:`). -/
def truthy : Json → Bool
  | .null => false
  | .bool b => b
  | .num n => n ≠ 0
  | .str s => s ≠ ""
  | .arr [] => false
  | .arr (_ :: _) => true
  | .obj [] => false
  | .obj (_ :: _) => true

/-- Python truthiness of a value that may be `None` (`if x:` where `x` is
`None` or a JSON value). -/
def optJsonTruthy : Option Json → Bool
  | none => false
  | some v => truthy v

/-- Model of `d.get(k)` on a Python dict: the value at key `k`, or `None`. -/
def getField (fs : List (String × Json)) (k : String) : Option Json :=
  (fs.find? (fun p => p.1 = k)).map (fun p => p.2)

/-- Model of `d[k]` chained subscription `j[k₁][k₂]…` where every failure mode
(missing key `KeyError`, non-dict subscription `TypeError`) yields `none`,
mirroring the scripts' `except (TypeError, KeyError)` handlers. -/
def pyIndexPath (j : Json) : List String → Option Json
  | [] => some j
  | k :: ks =>
    match j with
    | .obj fs =>
      match getField fs k with
      | some v => pyIndexPath v ks
      | none => none
    | _ => none

/-- Python's `str.lower()` (ASCII; the script only compares ASCII text). -/
def strLower (s : String) : String := ⟨s.data.map Char.toLower⟩

/-- Characters stripped by Python's `str.strip()`. -/
def isPySpace (c : Char) : Bool :=
  c = ' ' || c = '\t' || c = '\n' || c = '\r' || c = '\x0b' || c = '\x0c'

/-- Python's `str.strip()`. -/
def strStrip (s : String) : String :=
  ⟨((s.data.dropWhile isPySpace).reverse.dropWhile isPySpace).reverse⟩

/-- Whether `pat` occurs in `s` as a contiguous sublist (helper for Python's
`pat in s` on strings), prefix test. -/
def isPrefixChars : List Char → List Char → Bool
  | [], _ => true
  | _ :: _, [] => false
  | p :: ps, c :: cs => p = c && isPrefixChars ps cs

/-- Model of `pat in s` for Python strings: substring occurrence. -/
def isSubstrChars (pat : List Char) : List Char → Bool
  | [] => isPrefixChars pat []
  | c :: cs => isPrefixChars pat (c :: cs) || isSubstrChars pat cs

/-- Python's `pat in s` on strings. -/
def strContains (s pat : String) : Bool := isSubstrChars pat.data s.data

/-- Python's `s.split("/")` (`str.split` with an explicit separator:
`"".split("/") == [""]`, empty fields kept). -/
def splitSlash : List Char → List (List Char)
  | [] => [[]]
  | c :: rest =>
    if c = '/' then [] :: splitSlash rest
    else
      match splitSlash rest with
      | h :: t => (c :: h) :: t
      | [] => [[c]]

-- quick sanity examples for the string helpers
example : strStrip " false " = "false" := by decide
example : strLower "FaLsE" = "false" := by decide
example : strContains "an unexpected internal error occurred." "unexpected internal error" = true := by
  decide
example : splitSlash "owner/repo".data = ["owner".data, "repo".data] := by decide
example : splitSlash "".data = [[]] := by decide

/-! ## `is_transient_activityseries_500`

The script's predicate walks the `errors` list with a `for` loop inside a
`try/except Exception: pass`, so an element that makes the inspection
raise (`x.get` on a non-dict, `.lower()` on a truthy non-string, …)
aborts the whole scan with `False` — even when a matching error sits
later in the list. -/

/-- Model of the expression `e.get("extensions") or` empty-dict, then requiring a dict for the following
`.get("code")`: `none` models the `AttributeError` raised on a truthy
non-dict value. -/
def pyOrDict : Option Json → Option (List (String × Json))
  | none => some []
  | some v =>
    if truthy v then
      match v with
      | .obj fs => some fs
      | _ => none
    else some []

/-- Model of `(e.get("message") or "")`, then requiring a string for the following
`.lower()`: `none` models the `AttributeError` raised on a truthy
non-string value. -/
def pyOrEmptyStr : Option Json → Option String
  | none => some ""
  | some v =>
    if truthy v then
      match v with
      | .str s => some s
      | _ => none
    else some ""

/-- Model of `e.get("path") == ["activitySeries"]`. -/
def pathIsActivitySeries : Option Json → Bool
  | some (.arr [.str "activitySeries"]) => true
  | _ => false

/-- Model of `code == 500` for the value of `extensions.get("code")`. -/
def codeIs500 : Option Json → Bool
  | some (.num 500) => true
  | _ => false

/-- The `for e in errors` loop body of `is_transient_activityseries_500`:
returns `true` at the first element whose `path` is `["activitySeries"]`,
whose `extensions.code` is `500` and whose lowered `message` contains
`"unexpected internal error"`; an element whose inspection raises makes
the whole call return `false` (the surrounding `except Exception`). -/
def scanErrors : List Json → Bool
  | [] => false
  | e :: rest =>
    match e with
    | .obj fs =>
      if pathIsActivitySeries (getField fs "path") then
        match pyOrDict (getField fs "extensions") with
        | some efs =>
          match pyOrEmptyStr (getField fs "message") with
          | some m =>
            if codeIs500 (getField efs "code") &&
                strContains (strLower m) "unexpected internal error" then true
            else scanErrors rest
          | none => false
        | none => false
      else scanErrors rest
    | _ => false

/-- Model of `is_transient_activityseries_500(errors)`.  The argument is the raw
`errors` value (`none` = Python `None`).  `for e in (errors or [])` over a
falsy value iterates nothing; iterating a truthy non-list either raises
(`TypeError` on a non-iterable) or yields non-dict elements whose `.get`
raises — both caught, yielding `false`. -/
def is_transient_activityseries_500 (errors : Option Json) : Bool :=
  match errors with
  | none => false
  | some v =>
    if truthy v then
      match v with
      | .arr es => scanErrors es
      | _ => false
    else false

/-- A concrete error matching the transient signature (the exact payload
from the spec's scenario). -/
def sampleTransientErr : Json :=
  .obj [("path", .arr [.str "activitySeries"]),
        ("extensions", .obj [("code", .num 500)]),
        ("message", .str "An unexpected internal error occurred.")]

example : is_transient_activityseries_500 (some (.arr [sampleTransientErr])) = true := by decide
example : is_transient_activityseries_500 none = false := by decide
example : is_transient_activityseries_500 (some (.arr [.num 5, sampleTransientErr])) = false := by
  decide

/-! ## Transport: `post_graphql` and the raw HTTP layer

A `TransportEvent` is what one `requests.post(...)`/`raise_for_status()`
round-trip delivers: the request itself raising (`requests.RequestException`
from a network/timeout failure), `raise_for_status` raising on a non-2xx
HTTP status, or a response body that is either undecodable or a JSON
value. -/

/-- Body of an HTTP response that completed with a 2xx status. -/
inductive RawBody where
  | invalid
  | json (j : Json)

/-- One HTTP round-trip as the script observes it. -/
inductive TransportEvent where
  | networkFailure (msg : String)
  | httpError (status : Nat) (msg : String)
  | response (body : RawBody)

/-- Stderr diagnostics emitted by the script's helpers. -/
inductive LogLine where
  | requestFailed (msg : String)
  | notValidJson
  | gqlErrors (errs : Json)
  | unexpectedShape (op : String)
  | mustBeProvided
  | noTaskchainId

/-- Model of `post_graphql`: returns the decoded body on 2xx + valid JSON + no
truthy `errors` key; returns `None` (with a stderr line) on every failure
class.  `data.get("errors")` on a non-dict JSON body raises an uncaught
`AttributeError` (`Except.error`). -/
def post_graphql (t : TransportEvent) : Except Unit (Option Json) × List LogLine :=
  match t with
  | .networkFailure m => (.ok none, [.requestFailed m])
  | .httpError _ m => (.ok none, [.requestFailed m])
  | .response .invalid => (.ok none, [.notValidJson])
  | .response (.json j) =>
    match j with
    | .obj fs =>
      match getField fs "errors" with
      | some e => if truthy e then (.ok none, [.gqlErrors e]) else (.ok (some j), [])
      | none => (.ok (some j), [])
    | _ => (.error (), [])

/-! ## Auth: `get_access_token`

No `try/except` of its own: every failure (request exception,
`raise_for_status`, `ValueError` from `.json()`, `AttributeError` from
`.get` on a non-dict) propagates to `main`'s handler. -/

/-- Model of `get_access_token`: `response.json().get("access_token")`, with every
failure propagating as an exception. -/
def get_access_token (t : TransportEvent) : Except Unit (Option Json) :=
  match t with
  | .networkFailure _ => .error ()
  | .httpError _ _ => .error ()
  | .response .invalid => .error ()
  | .response (.json (.obj fs)) => .ok (getField fs "access_token")
  | .response (.json _) => .error ()

/-! ## Identifier resolvers -/

/-- Model of `get_rubrik_sla_domain_id`: extracts
`result["data"]["slaDomains"]["nodes"]` (shape failure is caught, logged
and turned into `None`), returns `None` silently on an empty/falsy nodes
value, else `nodes[0].get("id")`.  `nodes[0]`/`.get` on a truthy
non-list-of-dicts raises uncaught (outside the `try`). -/
def get_rubrik_sla_domain_id (responses : String → TransportEvent) (sla_name : String) :
    Except Unit (Option Json) × List LogLine :=
  match post_graphql (responses sla_name) with
  | (.error e, logs) => (.error e, logs)
  | (.ok r, logs) =>
    if optJsonTruthy r then
      match r with
      | some j =>
        match pyIndexPath j ["data", "slaDomains", "nodes"] with
        | none => (.ok none, logs ++ [.unexpectedShape "get_rubrik_sla_domain_id"])
        | some nodes =>
          if truthy nodes then
            match nodes with
            | .arr (.obj nfs :: _) => (.ok (getField nfs "id"), logs)
            | _ => (.error (), logs)
          else (.ok none, logs)
      | none => (.ok none, logs)
    else (.ok none, logs)

/-- Model of `github_repo.split("/")[-1]`: the trailing path segment used as the
repository name in the lookup query. -/
def repoQueryName (github_repo : String) : String :=
  ⟨(splitSlash github_repo.data).getLastD []⟩

/-- Model of `get_rubrik_repo_id`: guards against a falsy input string, queries by
the trailing path segment of the reference, then extracts
`result["data"]["gitHubRepositories"]["nodes"]` exactly like the SLA
resolver. -/
def get_rubrik_repo_id (responses : String → TransportEvent) (github_repo : String) :
    Except Unit (Option Json) × List LogLine :=
  if github_repo = "" then (.ok none, [.mustBeProvided])
  else
    match post_graphql (responses (repoQueryName github_repo)) with
    | (.error e, logs) => (.error e, logs)
    | (.ok r, logs) =>
      if optJsonTruthy r then
        match r with
        | some j =>
          match pyIndexPath j ["data", "gitHubRepositories", "nodes"] with
          | none => (.ok none, logs ++ [.unexpectedShape "get_rubrik_repo_id"])
          | some nodes =>
            if truthy nodes then
              match nodes with
              | .arr (.obj nfs :: _) => (.ok (getField nfs "id"), logs)
              | _ => (.error (), logs)
            else (.ok none, logs)
        | none => (.ok none, logs)
      else (.ok none, logs)

/-! ## Snapshot trigger -/

/-- Model of `trigger_on_demand_snapshot`: a falsy `post_graphql` result is `None`
silently; a caught shape failure on
`result["data"]["backupDevOpsRepository"]["taskchainId"]` is `None` with a
log; a falsy extracted `taskchainId` is `None` with a log; otherwise the
extracted value is returned. -/
def trigger_on_demand_snapshot (t : TransportEvent) :
    Except Unit (Option Json) × List LogLine :=
  match post_graphql t with
  | (.error e, logs) => (.error e, logs)
  | (.ok r, logs) =>
    if optJsonTruthy r then
      match r with
      | some j =>
        match pyIndexPath j ["data", "backupDevOpsRepository", "taskchainId"] with
        | none => (.ok none, logs ++ [.unexpectedShape "trigger_on_demand_snapshot"])
        | some tc =>
          if truthy tc then (.ok (some tc), logs)
          else (.ok none, logs ++ [.noTaskchainId])
      | none => (.ok none, logs)
    else (.ok none, logs)

/-! ## Status poller: `wait_for_activity_series`

The loop issues one POST per iteration; the environment supplies the
successive round-trip outcomes as a list.  `none` as the overall result
means the supplied trace was exhausted while the loop was still running
(the real loop is unbounded and would keep polling). -/

/-- Outcome of one loop iteration of `wait_for_activity_series`. -/
inductive PollStep where
  | fatal
  | raised
  | retryTransient
  | gotStatus (s : Json)

/-- One iteration: a request/HTTP failure or undecodable body returns
`None`; a truthy `errors` value retries when transient and returns `None`
otherwise; else `result["data"]["activitySeries"]["lastActivityStatus"]`
is extracted (caught shape failure returns `None`).  `result.get` on a
non-dict JSON body raises uncaught. -/
def poll_once (t : TransportEvent) : PollStep :=
  match t with
  | .networkFailure _ => .fatal
  | .httpError _ _ => .fatal
  | .response .invalid => .fatal
  | .response (.json (.obj fs)) =>
    if optJsonTruthy (getField fs "errors") then
      if is_transient_activityseries_500 (getField fs "errors") then .retryTransient
      else .fatal
    else
      match pyIndexPath (.obj fs) ["data", "activitySeries", "lastActivityStatus"] with
      | some s => .gotStatus s
      | none => .fatal
  | .response (.json _) => .raised

/-- The extracted status ends the loop: `status in ("Success", "Failure")`. -/
def isTerminalStatus : Json → Bool
  | .str "Success" => true
  | .str "Failure" => true
  | _ => false

/-- Model of `wait_for_activity_series` over a finite trace of round-trips.
`some (.ok none)` = the function returned `None`; `some (.ok (some s))` =
it returned the terminal status `s`; `some (.error ())` = an uncaught
exception escaped; `none` = the trace ran out with the loop still
polling. -/
def wait_for_activity_series : List TransportEvent → Option (Except Unit (Option Json))
  | [] => none
  | t :: rest =>
    match poll_once t with
    | .fatal => some (.ok none)
    | .raised => some (.error ())
    | .retryTransient => wait_for_activity_series rest
    | .gotStatus s =>
      if isTerminalStatus s then some (.ok (some s))
      else wait_for_activity_series rest

/-! ## Configuration helpers and the orchestrator -/

/-- Model of `normalize_base_uri`: `(uri or "").strip().rstrip("/")`. -/
def normalize_base_uri (uri : Option String) : String :=
  ⟨(((strStrip (uri.getD "")).data.reverse.dropWhile (fun c => c = '/')).reverse)⟩

/-- Model of `str_to_bool`: `None` yields the default, any other string is `True`
unless it strips+lowers to `"false"`. -/
def str_to_bool (value : Option String) (d : Bool) : Bool :=
  match value with
  | none => d
  | some v => strLower (strStrip v) ≠ "false"

/-- Model of `take_on_demand_snapshot`: trigger, then either report `"Triggered"`
without waiting or run the poller.  The result layers are as in
`wait_for_activity_series`, with `.ok (some none)` = returned `None`. -/
def take_on_demand_snapshot (triggerResp : TransportEvent)
    (pollTrace : List TransportEvent) (wait_for_completion : Bool) :
    Option (Except Unit (Option Json)) × List LogLine :=
  match trigger_on_demand_snapshot triggerResp with
  | (.error e, logs) => (some (.error e), logs)
  | (.ok tc, logs) =>
    if optJsonTruthy tc then
      if wait_for_completion then (wait_for_activity_series pollTrace, logs)
      else (some (.ok (some (.str "Triggered"))), logs)
    else (some (.ok none), logs)

/-- The environment variables read by `main` (`none` = unset). -/
structure Env where
  rsc_uri : Option String
  client_id : Option String
  client_secret : Option String
  github_repo : Option String
  sla_domain_name : Option String
  wait_for_completion : Option String

/-- The behaviour of the remote backend during one run: the round-trip
outcome of each request `main` can issue.  Lookup responses are keyed by
the name sent in the query variables; the poller consumes successive
entries of `pollTrace`. -/
structure World where
  tokenResp : TransportEvent
  repoResp : String → TransportEvent
  slaResp : String → TransportEvent
  triggerResp : TransportEvent
  pollTrace : List TransportEvent

/-- The `missing` list `main` builds from the required inputs, in source
order. -/
def missingList (env : Env) : List String :=
  (if normalize_base_uri env.rsc_uri = "" then ["RUBRIK_RSC_URI"] else []) ++
  (if strStrip (env.client_id.getD "") = "" then ["RUBRIK_CLIENT_ID"] else []) ++
  (if strStrip (env.client_secret.getD "") = "" then ["RUBRIK_CLIENT_SECRET"] else []) ++
  (if strStrip (env.github_repo.getD "") = "" then ["GITHUB_REPO_NAME"] else []) ++
  (if strStrip (env.sla_domain_name.getD "") = "" then ["RUBRIK_SLA_DOMAIN_NAME"] else [])

/-- The repository reference `main` passes to the resolver. -/
def envRepoArg (env : Env) : String := strStrip (env.github_repo.getD "")

/-- The SLA-domain name `main` passes to the resolver. -/
def envSlaArg (env : Env) : String := strStrip (env.sla_domain_name.getD "")

/-- Model of `str_to_bool(os.getenv("WAIT_FOR_COMPLETION", "true"), default=True)`. -/
def envWait (env : Env) : Bool :=
  str_to_bool (some (env.wait_for_completion.getD "true")) true

/-- Model of `main`: the process exit code, or `none` when the poll trace ran out
with the loop still polling (the real loop is unbounded).  Every uncaught
exception from a callee lands in `main`'s `except Exception` and yields
exit code 1. -/
def mainRun (env : Env) (w : World) : Option Nat :=
  if missingList env ≠ [] then some 1
  else
    match get_access_token w.tokenResp with
    | .error _ => some 1
    | .ok token =>
      if optJsonTruthy token then
        match get_rubrik_repo_id w.repoResp (envRepoArg env) with
        | (.error _, _) => some 1
        | (.ok repo_id, _) =>
          if optJsonTruthy repo_id then
            match get_rubrik_sla_domain_id w.slaResp (envSlaArg env) with
            | (.error _, _) => some 1
            | (.ok sla_domain_id, _) =>
              if optJsonTruthy sla_domain_id then
                match take_on_demand_snapshot w.triggerResp w.pollTrace (envWait env) with
                | (some (.error _), _) => some 1
                | (none, _) => none
                | (some (.ok final_status), _) =>
                  if optJsonTruthy final_status then
                    if envWait env then
                      match final_status with
                      | some (.str s) => if s = "Success" then some 0 else some 1
                      | _ => some 1
                    else some 0
                  else some 1
              else some 1
          else some 1
      else some 1

/-- Truthiness of a non-raising call result (`if not x: return 1`). -/
def okTruthy : Except Unit (Option Json) → Bool
  | .ok v => optJsonTruthy v
  | .error _ => false

/-- The success condition of a run: every stage up to the trigger yields a
truthy value, and — when waiting — the poller returns `"Success"`. -/
def mainSuccessCond (env : Env) (w : World) : Prop :=
  missingList env = [] ∧
  okTruthy (get_access_token w.tokenResp) = true ∧
  okTruthy (get_rubrik_repo_id w.repoResp (envRepoArg env)).1 = true ∧
  okTruthy (get_rubrik_sla_domain_id w.slaResp (envSlaArg env)).1 = true ∧
  okTruthy (trigger_on_demand_snapshot w.triggerResp).1 = true ∧
  (envWait env = true →
    wait_for_activity_series w.pollTrace = some (.ok (some (.str "Success"))))

/-! ## Theorems -/

/-- Helper: `post_graphql` passes a body with no truthy `errors` value
through unchanged and silently. -/
theorem post_graphql_clean (fs : List (String × Json))
    (herr : optJsonTruthy (getField fs "errors") = false) :
    post_graphql (.response (.json (.obj fs))) = (.ok (some (.obj fs)), []) := by
  unfold post_graphql
  dsimp only
  cases hget : getField fs "errors" with
  | none => rfl
  | some e =>
    rw [hget, optJsonTruthy] at herr
    simp [herr]

/-- Helper: truthiness of a non-empty JSON array. -/
theorem truthy_arr_cons (x : Json) (xs : List Json) : truthy (.arr (x :: xs)) = true := rfl

/-- Helper: truthiness of an empty JSON array. -/
theorem truthy_arr_nil : truthy (.arr []) = false := rfl

/-- Helper: truthiness of a non-empty string. -/
theorem truthy_str_of_ne (s : String) (h : s ≠ "") : truthy (.str s) = true := by
  simp [truthy, h]

/-- Helper: `optJsonTruthy` on a present value. -/
theorem optJsonTruthy_some (j : Json) : optJsonTruthy (some j) = truthy j := rfl

/-- Helper: `optJsonTruthy` on an absent value. -/
theorem optJsonTruthy_none : optJsonTruthy none = false := rfl

/-- Helper: a body on which a chained subscription succeeds is a
non-empty (hence truthy) dict. -/
theorem pyIndexPath_obj_truthy (fs : List (String × Json)) (k : String)
    (ks : List String) (v : Json)
    (h : pyIndexPath (.obj fs) (k :: ks) = some v) : truthy (.obj fs) = true := by
  cases fs with
  | nil => simp [pyIndexPath, getField] at h
  | cons p rest => rfl

/-- The loop's terminal test holds exactly for the two literal strings. -/
theorem isTerminalStatus_iff (s : Json) :
    isTerminalStatus s = true ↔ s = .str "Success" ∨ s = .str "Failure" := by
  cases s with
  | str st =>
    by_cases h1 : st = "Success"
    · subst h1; simp [isTerminalStatus]
    · by_cases h2 : st = "Failure"
      · subst h2; simp [isTerminalStatus]
      · simp [isTerminalStatus, h1, h2]
  | null => simp [isTerminalStatus]
  | bool b => simp [isTerminalStatus]
  | num n => simp [isTerminalStatus]
  | arr xs => simp [isTerminalStatus]
  | obj fs => simp [isTerminalStatus]

/-- C1: a status-query response with a truthy `errors` value makes the
poller continue with the next attempt exactly when
`is_transient_activityseries_500` accepts the errors value — the
transient signature (path `["activitySeries"]`, `extensions.code = 500`,
a message containing "unexpected internal error"); any other errors value
makes the poller return `None` (fatal) without retrying. -/
theorem poller_retries_iff_transient
    (fs : List (String × Json)) (errs : Json) (rest : List TransportEvent)
    (hget : getField fs "errors" = some errs) (htruthy : truthy errs = true) :
    (is_transient_activityseries_500 (some errs) = true →
      wait_for_activity_series (.response (.json (.obj fs)) :: rest) =
        wait_for_activity_series rest) ∧
    (is_transient_activityseries_500 (some errs) = false →
      wait_for_activity_series (.response (.json (.obj fs)) :: rest) =
        some (.ok none)) := by
  constructor <;> intro h <;>
    simp [wait_for_activity_series, poll_once, hget, optJsonTruthy, htruthy, h]

/-- Witness for C1 at the spec's concrete transient payload. -/
theorem poller_retries_iff_transient_witness :
    (is_transient_activityseries_500 (some (.arr [sampleTransientErr])) = true →
      wait_for_activity_series
          (.response (.json (.obj [("errors", .arr [sampleTransientErr])])) :: []) =
        wait_for_activity_series []) ∧
    (is_transient_activityseries_500 (some (.arr [sampleTransientErr])) = false →
      wait_for_activity_series
          (.response (.json (.obj [("errors", .arr [sampleTransientErr])])) :: []) =
        some (.ok none)) :=
  poller_retries_iff_transient [("errors", .arr [sampleTransientErr])]
    (.arr [sampleTransientErr]) [] rfl rfl

/-- C2: the poller only ever returns a terminal status that is exactly the
case-sensitive literal `"Success"` or `"Failure"`, and whenever the
extracted status is any other value the loop goes on to the next
attempt. -/
theorem poller_terminal_only_exact_literals :
    (∀ (trace : List TransportEvent) (s : Json),
      wait_for_activity_series trace = some (.ok (some s)) →
        s = .str "Success" ∨ s = .str "Failure") ∧
    (∀ (t : TransportEvent) (s : Json) (rest : List TransportEvent),
      poll_once t = .gotStatus s → s ≠ .str "Success" → s ≠ .str "Failure" →
        wait_for_activity_series (t :: rest) = wait_for_activity_series rest) := by
  constructor
  · intro trace
    induction trace with
    | nil => intro s h; simp [wait_for_activity_series] at h
    | cons t rest ih =>
      intro s h
      unfold wait_for_activity_series at h
      split at h
      · simp at h
      · simp at h
      · exact ih s h
      · rename_i s' _
        split at h
        · rename_i ht
          have hs : s' = s := by simpa using h
          subst hs
          exact (isTerminalStatus_iff s').mp ht
        · exact ih s h
  · intro t s rest hp h1 h2
    have ht : isTerminalStatus s = false := by
      cases hb : isTerminalStatus s
      · rfl
      · rcases (isTerminalStatus_iff s).mp hb with h | h
        · exact absurd h h1
        · exact absurd h h2
    conv_lhs => rw [wait_for_activity_series]
    rw [hp]
    dsimp only
    rw [ht]
    simp

/-- Witness for C2: a `"Failure"` response is terminal, a `"Running"`
response keeps the loop going. -/
theorem poller_terminal_only_exact_literals_witness :
    ((Json.str "Failure") = .str "Success" ∨ (Json.str "Failure") = .str "Failure") ∧
    wait_for_activity_series
        [.response (.json (.obj [("data", .obj [("activitySeries",
          .obj [("lastActivityStatus", .str "Running")])])]))] =
      wait_for_activity_series [] :=
  ⟨poller_terminal_only_exact_literals.1
      [.response (.json (.obj [("data", .obj [("activitySeries",
        .obj [("lastActivityStatus", .str "Failure")])])]))]
      (.str "Failure") rfl,
   poller_terminal_only_exact_literals.2
      (.response (.json (.obj [("data", .obj [("activitySeries",
        .obj [("lastActivityStatus", .str "Running")])])])))
      (.str "Running") [] rfl (by simp) (by simp)⟩

/-- C3: the poller never fabricates a status.  A transport-level failure
(request exception, non-2xx HTTP status, undecodable body) or an
error-free response missing `data.activitySeries.lastActivityStatus`
returns `None` immediately; an attempt that lets the loop continue (for
every continuation) is either a transient-signature errors value or an
extracted non-terminal status, and the transient retry step really does
carry an errors value accepted by `is_transient_activityseries_500`. -/
theorem poller_never_fabricates_status :
    (∀ (m : String) (rest : List TransportEvent),
      wait_for_activity_series (.networkFailure m :: rest) = some (.ok none)) ∧
    (∀ (c : Nat) (m : String) (rest : List TransportEvent),
      wait_for_activity_series (.httpError c m :: rest) = some (.ok none)) ∧
    (∀ rest : List TransportEvent,
      wait_for_activity_series (.response .invalid :: rest) = some (.ok none)) ∧
    (∀ (fs : List (String × Json)) (rest : List TransportEvent),
      optJsonTruthy (getField fs "errors") = false →
      pyIndexPath (.obj fs) ["data", "activitySeries", "lastActivityStatus"] = none →
      wait_for_activity_series (.response (.json (.obj fs)) :: rest) = some (.ok none)) ∧
    (∀ t : TransportEvent,
      (∀ rest, wait_for_activity_series (t :: rest) = wait_for_activity_series rest) →
      poll_once t = .retryTransient ∨
        ∃ s, poll_once t = .gotStatus s ∧ isTerminalStatus s = false) ∧
    (∀ t : TransportEvent, poll_once t = .retryTransient →
      ∃ fs, t = .response (.json (.obj fs)) ∧
        is_transient_activityseries_500 (getField fs "errors") = true) := by
  refine ⟨?_, ?_, ?_, ?_, ?_, ?_⟩
  · intro m rest; simp [wait_for_activity_series, poll_once]
  · intro c m rest; simp [wait_for_activity_series, poll_once]
  · intro rest; simp [wait_for_activity_series, poll_once]
  · intro fs rest herr hpath
    simp [wait_for_activity_series, poll_once, herr, hpath]
  · intro t h
    have h0 : (match poll_once t with
        | PollStep.fatal => some (Except.ok none)
        | PollStep.raised => some (Except.error ())
        | PollStep.retryTransient => wait_for_activity_series []
        | PollStep.gotStatus s =>
          if isTerminalStatus s = true then some (Except.ok (some s))
          else wait_for_activity_series []) = none := h []
    split at h0
    · simp [wait_for_activity_series] at h0
    · simp [wait_for_activity_series] at h0
    · rename_i hp
      exact Or.inl hp
    · rename_i s hp
      split at h0
      · simp [wait_for_activity_series] at h0
      · rename_i ht
        exact Or.inr ⟨s, hp, by simpa using ht⟩
  · intro t hp
    cases t with
    | networkFailure m => simp [poll_once] at hp
    | httpError c m => simp [poll_once] at hp
    | response body =>
      cases body with
      | invalid => simp [poll_once] at hp
      | json j =>
        cases j with
        | obj fs =>
          refine ⟨fs, rfl, ?_⟩
          by_cases herr : optJsonTruthy (getField fs "errors") = true
          · by_cases htr :
              is_transient_activityseries_500 (getField fs "errors") = true
            · exact htr
            · simp [poll_once, herr, htr] at hp
          · simp [poll_once] at hp
            rw [if_neg herr] at hp
            split at hp <;> simp at hp
        | null => simp [poll_once] at hp
        | bool b => simp [poll_once] at hp
        | num n => simp [poll_once] at hp
        | str s => simp [poll_once] at hp
        | arr xs => simp [poll_once] at hp

/-- Witness for C3 at concrete inputs (a missing-status body continuing
nothing, and the transient retry case). -/
theorem poller_never_fabricates_status_witness :
    wait_for_activity_series
        (.response (.json (.obj [("data", .null)])) :: []) = some (.ok none) ∧
    (poll_once (.response (.json (.obj [("errors", .arr [sampleTransientErr])]))) =
        .retryTransient ∨
      ∃ s, poll_once (.response (.json (.obj [("errors", .arr [sampleTransientErr])]))) =
          .gotStatus s ∧ isTerminalStatus s = false) :=
  ⟨poller_never_fabricates_status.2.2.2.1 [("data", .null)] [] rfl rfl,
   poller_never_fabricates_status.2.2.2.2.1
      (.response (.json (.obj [("errors", .arr [sampleTransientErr])])))
      (fun _ => rfl)⟩

/-! ### C5: `post_graphql` failure classification -/

/-- C5 counterexample: the caller of `post_graphql` cannot distinguish
the failure classes.  A network failure and a non-2xx HTTP response
produce the identical caller-visible outcome (return value and stderr
line), and the return value is the same `None` for all four classes. -/
theorem post_graphql_failures_indistinguishable :
    post_graphql (.networkFailure "boom") = post_graphql (.httpError 503 "boom") ∧
    (post_graphql (.networkFailure "boom")).1 = .ok none ∧
    (post_graphql (.httpError 503 "boom")).1 = .ok none ∧
    (post_graphql (.response .invalid)).1 = .ok none ∧
    (post_graphql (.response (.json (.obj [("errors", .arr [.str "e"])])))).1 = .ok none :=
  ⟨rfl, rfl, rfl, rfl, rfl⟩

/-- C5 (amended): `post_graphql` returns the decoded body on a 2xx
response with valid JSON and no truthy `errors` value, and returns `None`
on each of the four failure classes; the classes are told apart only by
the stderr diagnostic, and the network-failure and HTTP-error classes
share the same diagnostic shape. -/
theorem post_graphql_amended_classification :
    (∀ m : String, post_graphql (.networkFailure m) = (.ok none, [.requestFailed m])) ∧
    (∀ (c : Nat) (m : String),
      post_graphql (.httpError c m) = (.ok none, [.requestFailed m])) ∧
    post_graphql (.response .invalid) = (.ok none, [.notValidJson]) ∧
    (∀ (fs : List (String × Json)) (errs : Json),
      getField fs "errors" = some errs → truthy errs = true →
      post_graphql (.response (.json (.obj fs))) = (.ok none, [.gqlErrors errs])) ∧
    (∀ fs : List (String × Json),
      optJsonTruthy (getField fs "errors") = false →
      post_graphql (.response (.json (.obj fs))) = (.ok (some (.obj fs)), [])) := by
  refine ⟨fun m => rfl, fun c m => rfl, rfl, ?_, ?_⟩
  · intro fs errs hget htruthy
    simp [post_graphql, hget, htruthy]
  · exact post_graphql_clean

/-- Witness for C5's amended theorem at a concrete errors payload and a
concrete clean body. -/
theorem post_graphql_amended_classification_witness :
    post_graphql (.response (.json (.obj [("errors", .arr [.str "e"])]))) =
      (.ok none, [.gqlErrors (.arr [.str "e"])]) ∧
    post_graphql (.response (.json (.obj [("data", .null)]))) =
      (.ok (some (.obj [("data", .null)])), []) :=
  ⟨post_graphql_amended_classification.2.2.2.1 [("errors", .arr [.str "e"])]
      (.arr [.str "e"]) rfl rfl,
   post_graphql_amended_classification.2.2.2.2 [("data", .null)] rfl⟩

/-! ### C6: identifier resolvers -/

/-- C6 counterexample: the empty-object response `{}` is error-free and
missing the expected nested fields, yet the resolver silently returns
absent — with exactly the same caller-visible outcome (no stderr line) as
a genuine zero-match response — because `if not result:` swallows the
falsy dict before the shape check runs. -/
theorem resolver_empty_object_silent_counterexample :
    get_rubrik_sla_domain_id (fun _ => .response (.json (.obj []))) "Gold" =
      (.ok none, []) ∧
    get_rubrik_sla_domain_id
        (fun _ => .response (.json (.obj [("data", .obj [("slaDomains",
          .obj [("nodes", .arr [])])])]))) "Gold" =
      (.ok none, []) :=
  ⟨rfl, rfl⟩

/-- C6 (amended): on an error-free lookup response both resolvers return
the `id` of the first node when the nodes list is non-empty, return
absent silently when the nodes list is empty, and treat a non-empty
response body missing the expected nested fields as a logged hard
failure — the sole exception being the falsy empty-object body `{}`,
which is silently treated as absent. -/
theorem resolvers_first_node_absent_shape :
    (∀ (resp : String → TransportEvent) (name : String)
        (fs : List (String × Json)),
      resp name = .response (.json (.obj fs)) →
      optJsonTruthy (getField fs "errors") = false →
      (∀ (nfs : List (String × Json)) (rest : List Json),
        pyIndexPath (.obj fs) ["data", "slaDomains", "nodes"] =
            some (.arr (.obj nfs :: rest)) →
        get_rubrik_sla_domain_id resp name = (.ok (getField nfs "id"), [])) ∧
      (pyIndexPath (.obj fs) ["data", "slaDomains", "nodes"] = some (.arr []) →
        get_rubrik_sla_domain_id resp name = (.ok none, [])) ∧
      (truthy (.obj fs) = true →
        pyIndexPath (.obj fs) ["data", "slaDomains", "nodes"] = none →
        get_rubrik_sla_domain_id resp name =
          (.ok none, [.unexpectedShape "get_rubrik_sla_domain_id"]))) ∧
    (∀ (resp : String → TransportEvent) (gh : String)
        (fs : List (String × Json)),
      gh ≠ "" →
      resp (repoQueryName gh) = .response (.json (.obj fs)) →
      optJsonTruthy (getField fs "errors") = false →
      (∀ (nfs : List (String × Json)) (rest : List Json),
        pyIndexPath (.obj fs) ["data", "gitHubRepositories", "nodes"] =
            some (.arr (.obj nfs :: rest)) →
        get_rubrik_repo_id resp gh = (.ok (getField nfs "id"), [])) ∧
      (pyIndexPath (.obj fs) ["data", "gitHubRepositories", "nodes"] =
          some (.arr []) →
        get_rubrik_repo_id resp gh = (.ok none, [])) ∧
      (truthy (.obj fs) = true →
        pyIndexPath (.obj fs) ["data", "gitHubRepositories", "nodes"] = none →
        get_rubrik_repo_id resp gh =
          (.ok none, [.unexpectedShape "get_rubrik_repo_id"]))) := by
  constructor
  · intro resp name fs hresp herr
    refine ⟨?_, ?_, ?_⟩
    · intro nfs rest hpath
      have htr := pyIndexPath_obj_truthy _ _ _ _ hpath
      simp [get_rubrik_sla_domain_id, hresp, post_graphql_clean fs herr,
        optJsonTruthy_some, htr, hpath, truthy_arr_cons]
    · intro hpath
      have htr := pyIndexPath_obj_truthy _ _ _ _ hpath
      simp [get_rubrik_sla_domain_id, hresp, post_graphql_clean fs herr,
        optJsonTruthy_some, htr, hpath, truthy_arr_nil]
    · intro htr hpath
      simp [get_rubrik_sla_domain_id, hresp, post_graphql_clean fs herr,
        optJsonTruthy_some, htr, hpath]
  · intro resp gh fs hgh hresp herr
    refine ⟨?_, ?_, ?_⟩
    · intro nfs rest hpath
      have htr := pyIndexPath_obj_truthy _ _ _ _ hpath
      simp [get_rubrik_repo_id, hgh, hresp, post_graphql_clean fs herr,
        optJsonTruthy_some, htr, hpath, truthy_arr_cons]
    · intro hpath
      have htr := pyIndexPath_obj_truthy _ _ _ _ hpath
      simp [get_rubrik_repo_id, hgh, hresp, post_graphql_clean fs herr,
        optJsonTruthy_some, htr, hpath, truthy_arr_nil]
    · intro htr hpath
      simp [get_rubrik_repo_id, hgh, hresp, post_graphql_clean fs herr,
        optJsonTruthy_some, htr, hpath]

/-- Witness for C6's amended theorem: the spec's scenario response
resolves `"Gold"` to `"P1"`, and an empty nodes list is a silent
absent. -/
theorem resolvers_first_node_absent_shape_witness :
    get_rubrik_sla_domain_id
        (fun _ => .response (.json (.obj [("data", .obj [("slaDomains",
          .obj [("nodes", .arr [.obj [("id", .str "P1"), ("name", .str "Gold")]])])])])))
        "Gold" =
      (.ok (getField [("id", .str "P1"), ("name", .str "Gold")] "id"), []) ∧
    get_rubrik_repo_id
        (fun _ => .response (.json (.obj [("data", .obj [("gitHubRepositories",
          .obj [("nodes", .arr [])])])])))
        "owner/repo" =
      (.ok none, []) :=
  ⟨((resolvers_first_node_absent_shape.1
      (fun _ => .response (.json (.obj [("data", .obj [("slaDomains",
        .obj [("nodes", .arr [.obj [("id", .str "P1"), ("name", .str "Gold")]])])])])))
      "Gold"
      [("data", .obj [("slaDomains",
        .obj [("nodes", .arr [.obj [("id", .str "P1"), ("name", .str "Gold")]])])])]
      rfl rfl).1
      [("id", .str "P1"), ("name", .str "Gold")] [] rfl),
   ((resolvers_first_node_absent_shape.2
      (fun _ => .response (.json (.obj [("data", .obj [("gitHubRepositories",
        .obj [("nodes", .arr [])])])])))
      "owner/repo"
      [("data", .obj [("gitHubRepositories", .obj [("nodes", .arr [])])])]
      (by simp) rfl rfl).2.1 rfl)⟩

/-! ### C7: snapshot trigger -/

/-- C7: on an error-free trigger response, a missing
`data.backupDevOpsRepository.taskchainId` yields `None` (the `{}` body
silently, any other body with a shape log), a present-but-falsy value
yields `None` with a log, and a present non-empty string is returned. -/
theorem trigger_taskchain_required (fs : List (String × Json))
    (herr : optJsonTruthy (getField fs "errors") = false) :
    (pyIndexPath (.obj fs) ["data", "backupDevOpsRepository", "taskchainId"] = none →
      (trigger_on_demand_snapshot (.response (.json (.obj fs)))).1 = .ok none) ∧
    (∀ v : Json,
      pyIndexPath (.obj fs) ["data", "backupDevOpsRepository", "taskchainId"] = some v →
      truthy v = false →
      trigger_on_demand_snapshot (.response (.json (.obj fs))) =
        (.ok none, [.noTaskchainId])) ∧
    (∀ s : String,
      pyIndexPath (.obj fs) ["data", "backupDevOpsRepository", "taskchainId"] =
          some (.str s) →
      s ≠ "" →
      trigger_on_demand_snapshot (.response (.json (.obj fs))) =
        (.ok (some (.str s)), [])) := by
  refine ⟨?_, ?_, ?_⟩
  · intro hpath
    cases fs with
    | nil =>
      simp [trigger_on_demand_snapshot, post_graphql_clean [] herr,
        optJsonTruthy_some, truthy]
    | cons p rest =>
      simp [trigger_on_demand_snapshot, post_graphql_clean (p :: rest) herr,
        optJsonTruthy_some, truthy, hpath]
  · intro v hpath hv
    have htr := pyIndexPath_obj_truthy _ _ _ _ hpath
    simp [trigger_on_demand_snapshot, post_graphql_clean fs herr,
      optJsonTruthy_some, htr, hpath, hv]
  · intro s hpath hs
    have htr := pyIndexPath_obj_truthy _ _ _ _ hpath
    simp [trigger_on_demand_snapshot, post_graphql_clean fs herr,
      optJsonTruthy_some, htr, hpath, truthy_str_of_ne s hs]

/-- Witness for C7: an empty-string `taskchainId` is rejected with a log,
a UUID-shaped one is returned. -/
theorem trigger_taskchain_required_witness :
    trigger_on_demand_snapshot (.response (.json (.obj [("data",
        .obj [("backupDevOpsRepository", .obj [("taskchainId", .str "")])])]))) =
      (.ok none, [.noTaskchainId]) ∧
    trigger_on_demand_snapshot (.response (.json (.obj [("data",
        .obj [("backupDevOpsRepository", .obj [("taskchainId", .str "tc-1")])])]))) =
      (.ok (some (.str "tc-1")), []) :=
  ⟨(trigger_taskchain_required
      [("data", .obj [("backupDevOpsRepository", .obj [("taskchainId", .str "")])])]
      rfl).2.1 (.str "") rfl rfl,
   (trigger_taskchain_required
      [("data", .obj [("backupDevOpsRepository", .obj [("taskchainId", .str "tc-1")])])]
      rfl).2.2 "tc-1" rfl (by simp)⟩

/-! ### C8: owner-qualified repository references -/

/-- Helper: `split` never yields an empty list of fields. -/
theorem splitSlash_ne_nil (l : List Char) : splitSlash l ≠ [] := by
  induction l with
  | nil => simp [splitSlash]
  | cons c rest ih =>
    unfold splitSlash
    by_cases hc : c = '/'
    · simp [hc]
    · rw [if_neg hc]
      cases h : splitSlash rest with
      | nil => simp
      | cons a t => simp

/-- Helper: the split equation at a separator character. -/
theorem splitSlash_cons_sep (rest : List Char) :
    splitSlash ('/' :: rest) = [] :: splitSlash rest := by
  conv_lhs => unfold splitSlash
  rw [if_pos rfl]

/-- Helper: the split equation at a non-separator character. -/
theorem splitSlash_cons_ne (c : Char) (rest : List Char) (hc : c ≠ '/')
    (x : List Char) (t : List (List Char)) (h : splitSlash rest = x :: t) :
    splitSlash (c :: rest) = (c :: x) :: t := by
  conv_lhs => unfold splitSlash
  rw [if_neg hc, h]

/-- Helper: splitting a list containing a separator yields at least two
fields. -/
theorem splitSlash_append_sep (a b : List Char) :
    2 ≤ (splitSlash (a ++ '/' :: b)).length := by
  induction a with
  | nil =>
    show 2 ≤ (splitSlash ('/' :: b)).length
    rw [splitSlash_cons_sep, List.length_cons]
    have := List.length_pos.mpr (splitSlash_ne_nil b)
    omega
  | cons c rest ih =>
    show 2 ≤ (splitSlash (c :: (rest ++ '/' :: b))).length
    by_cases hc : c = '/'
    · subst hc
      rw [splitSlash_cons_sep, List.length_cons]
      have := List.length_pos.mpr (splitSlash_ne_nil (rest ++ '/' :: b))
      omega
    · cases h : splitSlash (rest ++ '/' :: b) with
      | nil => exact absurd h (splitSlash_ne_nil _)
      | cons x t =>
        rw [splitSlash_cons_ne c _ hc x t h]
        rw [h] at ih
        simp only [List.length_cons] at ih ⊢
        omega

/-- Helper: `getLastD` of a non-empty list ignores the default. -/
theorem getLastD_default_irrel {α : Type} :
    ∀ (t : List α), t ≠ [] → ∀ d1 d2 : α, t.getLastD d1 = t.getLastD d2
  | [], h, _, _ => absurd rfl h
  | _ :: _, _, d1, d2 => by rw [List.getLastD_cons, List.getLastD_cons]

/-- Helper: the last field of a split is unaffected by everything before
the last separator. -/
theorem splitSlash_getLastD_append (a b : List Char) :
    (splitSlash (a ++ '/' :: b)).getLastD [] = (splitSlash b).getLastD [] := by
  induction a with
  | nil =>
    show (splitSlash ('/' :: b)).getLastD [] = _
    rw [splitSlash_cons_sep, List.getLastD_cons]
  | cons c rest ih =>
    show (splitSlash (c :: (rest ++ '/' :: b))).getLastD [] = _
    by_cases hc : c = '/'
    · subst hc
      rw [splitSlash_cons_sep, List.getLastD_cons]
      exact ih
    · cases h : splitSlash (rest ++ '/' :: b) with
      | nil => exact absurd h (splitSlash_ne_nil _)
      | cons x t =>
        have hlen := splitSlash_append_sep rest b
        rw [h] at hlen ih
        have ht : t ≠ [] := by
          cases t
          · simp at hlen
          · simp
        rw [splitSlash_cons_ne c _ hc x t h, List.getLastD_cons]
        rw [List.getLastD_cons] at ih
        rw [getLastD_default_irrel t ht (c :: x) x]
        exact ih

/-- Helper: the queried repository name ignores the owner prefix. -/
theorem repoQueryName_append (owner repo : String) :
    repoQueryName (owner ++ "/" ++ repo) = repoQueryName repo := by
  unfold repoQueryName
  have hdata : (owner ++ "/" ++ repo).data = owner.data ++ '/' :: repo.data := by
    simp [String.data_append, show ("/" : String).data = ['/'] from rfl]
  rw [hdata, splitSlash_getLastD_append]

/-- A responder that reports a repository hit for every queried name. -/
def repoHitResponses : String → TransportEvent := fun _ =>
  .response (.json (.obj [("data", .obj [("gitHubRepositories",
    .obj [("nodes", .arr [.obj [("id", .str "R1")]])])])]))

/-- C8 counterexample: with an empty repository name the two forms do not
resolve identically: `"o/"` issues a lookup (for the empty name) and
returns the hit, while the bare `""` short-circuits on the falsy input
without issuing any lookup. -/
theorem repo_ref_empty_name_counterexample :
    get_rubrik_repo_id repoHitResponses "o/" = (.ok (some (.str "R1")), []) ∧
    get_rubrik_repo_id repoHitResponses "" = (.ok none, [.mustBeProvided]) :=
  ⟨rfl, rfl⟩

/-- C8 (amended): for every owner string and *non-empty* repository name
the references `owner ++ "/" ++ repo` and `repo` put the same trailing
path segment into the lookup and produce the same result against every
responder. -/
theorem repo_ref_owner_stripped (owner repo : String) (h : repo ≠ "") :
    repoQueryName (owner ++ "/" ++ repo) = repoQueryName repo ∧
    ∀ resp : String → TransportEvent,
      get_rubrik_repo_id resp (owner ++ "/" ++ repo) = get_rubrik_repo_id resp repo := by
  have hq := repoQueryName_append owner repo
  have hne : owner ++ "/" ++ repo ≠ "" := by
    intro hcon
    have hd : (owner ++ "/" ++ repo).data = [] := by rw [hcon]
    simp [String.data_append, show ("/" : String).data = ['/'] from rfl] at hd
  refine ⟨hq, fun resp => ?_⟩
  unfold get_rubrik_repo_id
  rw [if_neg hne, if_neg h, hq]

/-- Witness for C8's amended theorem at `"owner"`/`"repo"`. -/
theorem repo_ref_owner_stripped_witness :
    repoQueryName ("owner" ++ "/" ++ "repo") = repoQueryName "repo" ∧
    ∀ resp : String → TransportEvent,
      get_rubrik_repo_id resp ("owner" ++ "/" ++ "repo") =
        get_rubrik_repo_id resp "repo" :=
  repo_ref_owner_stripped "owner" "repo" (by simp)

/-! ### C4: orchestrator exit codes -/

/-- Helper: the full exit-code characterisation of a `main` run. -/
theorem mainRun_exit_spec (env : Env) (w : World) :
    (mainRun env w = some 0 ↔ mainSuccessCond env w) ∧
    (mainRun env w = none ∨ mainRun env w = some 0 ∨ mainRun env w = some 1) := by
  unfold mainRun mainSuccessCond
  by_cases hm : missingList env = []
  case neg =>
    rw [if_pos hm]
    simp [hm]
  case pos =>
    rw [if_neg (by simp [hm])]
    cases htok : get_access_token w.tokenResp with
    | error e => simp [okTruthy, hm]
    | ok token =>
      dsimp only
      by_cases htt : optJsonTruthy token = true
      case neg =>
        rw [if_neg htt]
        simp [okTruthy, hm, htt]
      case pos =>
        rw [if_pos htt]
        rcases hrepo : get_rubrik_repo_id w.repoResp (envRepoArg env) with ⟨r1, logs1⟩
        dsimp only
        cases r1 with
        | error e => simp [okTruthy, hm, htt, hrepo]
        | ok repo_id =>
          dsimp only
          by_cases hrt : optJsonTruthy repo_id = true
          case neg =>
            rw [if_neg hrt]
            simp [okTruthy, hm, htt, hrepo, hrt]
          case pos =>
            rw [if_pos hrt]
            rcases hsla : get_rubrik_sla_domain_id w.slaResp (envSlaArg env) with ⟨s1, logs2⟩
            dsimp only
            cases s1 with
            | error e => simp [okTruthy, hm, htt, hrepo, hrt, hsla]
            | ok sla_id =>
              dsimp only
              by_cases hst : optJsonTruthy sla_id = true
              case neg =>
                rw [if_neg hst]
                simp [okTruthy, hm, htt, hrepo, hrt, hsla, hst]
              case pos =>
                rw [if_pos hst]
                unfold take_on_demand_snapshot
                rcases htrig : trigger_on_demand_snapshot w.triggerResp with ⟨t1, tlogs⟩
                dsimp only
                cases t1 with
                | error e => simp [okTruthy, hm, htt, hrepo, hrt, hsla, hst, htrig]
                | ok tc =>
                  dsimp only
                  by_cases htc : optJsonTruthy tc = true
                  case neg =>
                    rw [if_neg htc]
                    simp [okTruthy, optJsonTruthy_none, hm, htt, hrepo, hrt, hsla, hst,
                      htrig, htc]
                  case pos =>
                    rw [if_pos htc]
                    by_cases hw : envWait env = true
                    case neg =>
                      rw [if_neg hw]
                      simp [okTruthy, optJsonTruthy_some, truthy, hm, htt, hrepo, hrt,
                        hsla, hst, htrig, htc, hw]
                    case pos =>
                      rw [if_pos hw]
                      cases hpoll : wait_for_activity_series w.pollTrace with
                      | none =>
                        simp [okTruthy, hm, htt, hrepo, hrt, hsla, hst, htrig, htc, hw]
                      | some r =>
                        cases r with
                        | error e =>
                          simp [okTruthy, hm, htt, hrepo, hrt, hsla, hst, htrig,
                            htc, hw]
                        | ok fin =>
                          cases fin with
                          | none =>
                            simp [okTruthy, optJsonTruthy_none, hm, htt, hrepo, hrt,
                              hsla, hst, htrig, htc, hw]
                          | some j =>
                            cases j with
                            | str s =>
                              by_cases hs : s = "Success"
                              · subst hs
                                simp [okTruthy, optJsonTruthy_some, truthy, hm, htt,
                                  hrepo, hrt, hsla, hst, htrig, htc, hw]
                              · simp [okTruthy, optJsonTruthy_some, truthy, hm, htt,
                                  hrepo, hrt, hsla, hst, htrig, htc, hw, hs]
                            | null =>
                              simp [okTruthy, optJsonTruthy_some, truthy, hm, htt,
                                hrepo, hrt, hsla, hst, htrig, htc, hw]
                            | bool b =>
                              simp [okTruthy, optJsonTruthy_some, truthy, hm, htt,
                                hrepo, hrt, hsla, hst, htrig, htc, hw]
                            | num n =>
                              simp [okTruthy, optJsonTruthy_some, truthy, hm, htt,
                                hrepo, hrt, hsla, hst, htrig, htc, hw]
                            | arr xs =>
                              simp [okTruthy, optJsonTruthy_some, truthy, hm, htt,
                                hrepo, hrt, hsla, hst, htrig, htc, hw]
                            | obj ofs =>
                              simp [okTruthy, optJsonTruthy_some, truthy, hm, htt,
                                hrepo, hrt, hsla, hst, htrig, htc, hw]

/-- C4: a run of `main` returns exit code 0 exactly when configuration,
token, both lookups and the trigger all yield truthy values and — when
the wait flag is on — the poller returns `"Success"`; every other
completed run returns exit code 1 (a run can also fail to complete only
because the supplied poll trace ran out while the unbounded loop was
still polling). -/
theorem main_exit_code_spec (env : Env) (w : World) :
    (mainRun env w = some 0 ↔ mainSuccessCond env w) ∧
    (mainRun env w = none ∨ mainRun env w = some 0 ∨ mainRun env w = some 1) :=
  mainRun_exit_spec env w

/-! ### C9: the wait-for-completion flag -/

/-- C9 counterexample: the flag value `" false"` (leading blank) disables
waiting even though it is not, case-insensitively, the literal string
`"false"` — the script strips surrounding whitespace before comparing. -/
theorem wait_flag_whitespace_counterexample :
    str_to_bool (some " false") true = false ∧ strLower " false" ≠ "false" :=
  ⟨by decide, by decide⟩

/-- Helper: with waiting disabled, the snapshot step never touches the
poll trace. -/
theorem take_no_wait_trace_irrel (t : TransportEvent)
    (trace trace' : List TransportEvent) :
    take_on_demand_snapshot t trace false = take_on_demand_snapshot t trace' false := by
  unfold take_on_demand_snapshot
  rcases trigger_on_demand_snapshot t with ⟨t1, logs⟩
  cases t1 <;> simp

/-- A fully-populated environment whose wait flag is the literal
`"false"`. -/
def envNoWait : Env :=
  { rsc_uri := some "https://rsc.example.com/", client_id := some "cid",
    client_secret := some "sec", github_repo := some "owner/repo",
    sla_domain_name := some "Gold", wait_for_completion := some "false" }

/-- A backend behaviour in which every request of a run succeeds. -/
def goodWorld : World :=
  { tokenResp := .response (.json (.obj [("access_token", .str "abc")])),
    repoResp := fun _ => .response (.json (.obj [("data",
      .obj [("gitHubRepositories", .obj [("nodes",
        .arr [.obj [("id", .str "R1")]])])])])),
    slaResp := fun _ => .response (.json (.obj [("data",
      .obj [("slaDomains", .obj [("nodes",
        .arr [.obj [("id", .str "P1")]])])])])),
    triggerResp := .response (.json (.obj [("data",
      .obj [("backupDevOpsRepository", .obj [("taskchainId",
        .str "tc-1")])])])),
    pollTrace := [.response (.json (.obj [("data",
      .obj [("activitySeries", .obj [("lastActivityStatus",
        .str "Success")])])]))] }

/-- C9 (amended): waiting is disabled exactly when the flag value,
after stripping surrounding whitespace, case-insensitively equals
`"false"`; an unset flag defaults to waiting enabled; and with waiting
disabled the orchestrator never consumes the poll trace and exits 0 as
soon as every stage through the trigger has succeeded. -/
theorem wait_flag_spec :
    (∀ v : String, str_to_bool (some v) true = false ↔
      strLower (strStrip v) = "false") ∧
    (∀ d : Bool, str_to_bool none d = d) ∧
    (∀ env : Env, env.wait_for_completion = none → envWait env = true) ∧
    (∀ (env : Env) (w : World) (trace' : List TransportEvent),
      envWait env = false →
      mainRun env w = mainRun env { w with pollTrace := trace' }) ∧
    (∀ (env : Env) (w : World),
      envWait env = false →
      missingList env = [] →
      okTruthy (get_access_token w.tokenResp) = true →
      okTruthy (get_rubrik_repo_id w.repoResp (envRepoArg env)).1 = true →
      okTruthy (get_rubrik_sla_domain_id w.slaResp (envSlaArg env)).1 = true →
      okTruthy (trigger_on_demand_snapshot w.triggerResp).1 = true →
      mainRun env w = some 0) := by
  refine ⟨?_, fun d => rfl, ?_, ?_, ?_⟩
  · intro v
    simp [str_to_bool]
  · intro env h
    unfold envWait
    rw [h]
    decide
  · intro env w trace' hw
    unfold mainRun
    dsimp only
    rw [hw]
    rw [take_no_wait_trace_irrel w.triggerResp w.pollTrace trace']
  · intro env w hw hm h1 h2 h3 h4
    exact (mainRun_exit_spec env w).1.mpr
      ⟨hm, h1, h2, h3, h4, fun hcon => absurd hcon (by simp [hw])⟩

/-- Witness for C9's amended theorem: `"FALSE"` disables waiting, and a
fully-successful no-wait run exits 0. -/
theorem wait_flag_spec_witness :
    (str_to_bool (some "FALSE") true = false ↔
      strLower (strStrip "FALSE") = "false") ∧
    mainRun envNoWait goodWorld = some 0 :=
  ⟨wait_flag_spec.1 "FALSE",
   wait_flag_spec.2.2.2.2 envNoWait goodWorld rfl rfl rfl rfl rfl rfl⟩

/-! ### C10: scanning a mixed errors array -/

/-- The transient signature of a single error entry, exactly as the scan
tests it: a dict whose `path` equals `["activitySeries"]`, whose
`extensions` value resolves to a dict with `code = 500` without raising,
and whose `message` resolves to a string whose lowering contains
`"unexpected internal error"`. -/
def sigMatch : Json → Bool
  | .obj fs =>
    pathIsActivitySeries (getField fs "path") &&
    (match pyOrDict (getField fs "extensions"),
        pyOrEmptyStr (getField fs "message") with
     | some efs, some m =>
       codeIs500 (getField efs "code") &&
       strContains (strLower m) "unexpected internal error"
     | _, _ => false)
  | _ => false

/-- An error entry the scan steps over: it neither matches the signature
nor makes the inspection raise. -/
def scanSkips : Json → Bool
  | .obj fs =>
    if pathIsActivitySeries (getField fs "path") then
      match pyOrDict (getField fs "extensions"),
          pyOrEmptyStr (getField fs "message") with
      | some efs, some m =>
        !(codeIs500 (getField efs "code") &&
          strContains (strLower m) "unexpected internal error")
      | _, _ => false
    else true
  | _ => false

/-- Helper: one scan step either matches, skips, or aborts. -/
theorem scanErrors_cons (e : Json) (l : List Json) :
    scanErrors (e :: l) =
      if sigMatch e = true then true
      else if scanSkips e = true then scanErrors l
      else false := by
  conv_lhs => rw [scanErrors.eq_def]
  dsimp only
  cases e with
  | obj fs =>
    dsimp only
    by_cases hp : pathIsActivitySeries (getField fs "path") = true
    · rw [if_pos hp]
      cases hext : pyOrDict (getField fs "extensions") with
      | none => simp [sigMatch, scanSkips, hp, hext]
      | some efs =>
        cases hmsg : pyOrEmptyStr (getField fs "message") with
        | none => simp [sigMatch, scanSkips, hp, hext, hmsg]
        | some m =>
          by_cases hc : (codeIs500 (getField efs "code") &&
              strContains (strLower m) "unexpected internal error") = true
          · simp [sigMatch, scanSkips, hp, hext, hmsg, hc]
          · simp [sigMatch, scanSkips, hp, hext, hmsg, hc]
    · rw [if_neg hp]
      simp [sigMatch, scanSkips, hp]
  | null => simp [sigMatch, scanSkips]
  | bool b => simp [sigMatch, scanSkips]
  | num n => simp [sigMatch, scanSkips]
  | str s => simp [sigMatch, scanSkips]
  | arr xs => simp [sigMatch, scanSkips]

/-- Helper: a successful scan contains a signature-matching entry. -/
theorem scanErrors_true_exists :
    ∀ l : List Json, scanErrors l = true → ∃ e ∈ l, sigMatch e = true := by
  intro l
  induction l with
  | nil => intro h; simp [scanErrors] at h
  | cons e rest ih =>
    intro h
    rw [scanErrors_cons] at h
    by_cases hm : sigMatch e = true
    · exact ⟨e, List.mem_cons_self e rest, hm⟩
    · rw [if_neg hm] at h
      by_cases hs : scanSkips e = true
      · rw [if_pos hs] at h
        obtain ⟨x, hx, hmx⟩ := ih h
        exact ⟨x, List.mem_cons_of_mem e hx, hmx⟩
      · rw [if_neg hs] at h
        exact absurd h (by simp)

/-- Helper: cleanly skippable entries do not stop the scan from finding a
later match. -/
theorem scanErrors_skips_then_match :
    ∀ (pre : List Json) (g : Json) (post : List Json),
      (∀ e ∈ pre, scanSkips e = true) → sigMatch g = true →
      scanErrors (pre ++ g :: post) = true := by
  intro pre
  induction pre with
  | nil =>
    intro g post _ hg
    rw [List.nil_append, scanErrors_cons, if_pos hg]
  | cons e pre' ih =>
    intro g post hskip hg
    rw [List.cons_append, scanErrors_cons]
    by_cases hm : sigMatch e = true
    · rw [if_pos hm]
    · rw [if_neg hm, if_pos (hskip e (List.mem_cons_self e pre'))]
      exact ih g post (fun x hx => hskip x (List.mem_cons_of_mem e hx)) hg

/-- C10 counterexample: an errors array that contains an entry matching
the transient signature is nevertheless classified non-transient when an
uninspectable element precedes it — the `except Exception` aborts the
whole scan at the first raising element. -/
theorem transient_scan_abort_counterexample :
    is_transient_activityseries_500 (some (.arr [.num 5, sampleTransientErr])) = false ∧
    sigMatch sampleTransientErr = true ∧
    is_transient_activityseries_500 (some (.arr [sampleTransientErr])) = true :=
  ⟨by decide, by decide, by decide⟩

/-- C10 (amended): `is_transient_activityseries_500` returns true for an
errors array containing a signature-matching entry provided every earlier
entry is cleanly skippable (a dict the inspection steps over without
raising); whenever it returns true the array really contains a matching
entry; and `None` or an empty array yields false. -/
theorem transient_signature_scan :
    (∀ v : Option Json, is_transient_activityseries_500 v = true →
      ∃ es : List Json, v = some (.arr es) ∧ ∃ e ∈ es, sigMatch e = true) ∧
    (∀ (pre post : List Json) (g : Json),
      (∀ e ∈ pre, scanSkips e = true) → sigMatch g = true →
      is_transient_activityseries_500 (some (.arr (pre ++ g :: post))) = true) ∧
    is_transient_activityseries_500 none = false ∧
    is_transient_activityseries_500 (some (.arr [])) = false := by
  refine ⟨?_, ?_, rfl, rfl⟩
  · intro v h
    cases v with
    | none => simp [is_transient_activityseries_500] at h
    | some val =>
      cases val with
      | arr es =>
        refine ⟨es, rfl, ?_⟩
        unfold is_transient_activityseries_500 at h
        dsimp only at h
        by_cases ht : truthy (.arr es) = true
        · rw [if_pos ht] at h
          exact scanErrors_true_exists es h
        · rw [if_neg ht] at h
          exact absurd h (by simp)
      | null => simp [is_transient_activityseries_500, truthy] at h
      | bool b =>
        unfold is_transient_activityseries_500 at h
        dsimp only at h
        by_cases hb : truthy (.bool b) = true
        · rw [if_pos hb] at h
          exact absurd h (by simp)
        · rw [if_neg hb] at h
          exact absurd h (by simp)
      | num n =>
        unfold is_transient_activityseries_500 at h
        dsimp only at h
        by_cases hb : truthy (.num n) = true
        · rw [if_pos hb] at h
          exact absurd h (by simp)
        · rw [if_neg hb] at h
          exact absurd h (by simp)
      | str s =>
        unfold is_transient_activityseries_500 at h
        dsimp only at h
        by_cases hb : truthy (.str s) = true
        · rw [if_pos hb] at h
          exact absurd h (by simp)
        · rw [if_neg hb] at h
          exact absurd h (by simp)
      | obj fs =>
        unfold is_transient_activityseries_500 at h
        dsimp only at h
        by_cases hb : truthy (.obj fs) = true
        · rw [if_pos hb] at h
          exact absurd h (by simp)
        · rw [if_neg hb] at h
          exact absurd h (by simp)
  · intro pre post g hskip hg
    have hscan := scanErrors_skips_then_match pre g post hskip hg
    unfold is_transient_activityseries_500
    dsimp only
    have ht : truthy (.arr (pre ++ g :: post)) = true := by
      cases hl : pre ++ g :: post with
      | nil => exact absurd hl (by simp)
      | cons x xs => rfl
    rw [if_pos ht]
    exact hscan

/-- An error entry with a different path, stepped over by the scan. -/
def otherPathErr : Json :=
  .obj [("path", .arr [.str "somethingElse"]), ("message", .str "other")]

/-- Witness for C10's amended theorem: a matching entry is found after a
cleanly skippable entry, and a lone matching array implies containment of
a matching entry. -/
theorem transient_signature_scan_witness :
    (∃ es : List Json, (some (.arr [sampleTransientErr]) : Option Json) =
        some (.arr es) ∧ ∃ e ∈ es, sigMatch e = true) ∧
    is_transient_activityseries_500
        (some (.arr ([otherPathErr] ++ sampleTransientErr :: [.num 7]))) = true :=
  ⟨transient_signature_scan.1 (some (.arr [sampleTransientErr])) (by decide),
   transient_signature_scan.2.1 [otherPathErr] [.num 7] sampleTransientErr
     (by
       intro e he
       rw [List.mem_singleton] at he
       subst he
       decide)
     (by decide)⟩
